import Mathlib

/-!
Shallow embedding of `src/bot.py` (a Telegram invite-link bot): the SQLite-backed
`DatabaseManager`, the command handlers, and the startup sequence, together with
theorems settling the frozen claims about the program.

Modelling conventions:
* The SQLite database is a `DBState`: the `authorized_users` table is a list of
  distinct ids in insertion order, the `invite_links` table a list of rows in
  rowid (insertion) order plus the next AUTOINCREMENT id.
* `CURRENT_TIMESTAMP` is an external clock value (a `Nat`, second granularity),
  passed to the operation that reads it.
* `ORDER BY timestamp DESC` is modelled as a stable sort of the rows (kept in
  rowid order) by timestamp descending; SQLite does not document a tie order,
  and the stable sort reflects the scan-order behaviour.
* Python exceptions that terminate the process (the `BOT_TOKEN` check) are a
  `StartupResult.failed` value; the interpreter exits with non-zero status there.
-/

/-- A row of the `invite_links` table:
`id INTEGER PRIMARY KEY AUTOINCREMENT, submitter_id, link, timestamp`. -/
structure LinkRow where
  id : Nat
  submitter : Int
  link : String
  timestamp : Nat
deriving Repr, DecidableEq

/-- The state held in `bot_data.db`: the two tables created by `_setup_db`,
plus the next AUTOINCREMENT value for `invite_links.id`. -/
structure DBState where
  authorized : List Int
  links : List LinkRow
  nextId : Nat
deriving Repr, DecidableEq

/-- The empty database produced by `_setup_db` on a fresh file. -/
def initialState : DBState := ⟨[], [], 1⟩

/-- The static admin set `ADMIN_IDS = {123456789, 987654321}` from the configuration section. -/
def ADMIN_IDS : List Int := [123456789, 987654321]

/-- Predicate `is_admin(user_id)`: membership in the static `ADMIN_IDS` set. -/
def is_admin (user_id : Int) : Bool := decide (user_id ∈ ADMIN_IDS)

/-- Model of `DatabaseManager.add_authorized_user`: `INSERT OR IGNORE` into
`authorized_users`, returning `cursor.rowcount > 0` (true iff a row was
actually inserted, i.e. the id was absent). -/
def add_authorized_user (s : DBState) (user_id : Int) : DBState × Bool :=
  if user_id ∈ s.authorized then (s, false)
  else ({ s with authorized := s.authorized ++ [user_id] }, true)

/-- Model of `DatabaseManager.remove_authorized_user`: `DELETE FROM authorized_users
WHERE user_id = ?`, returning `cursor.rowcount > 0` (true iff a row existed). -/
def remove_authorized_user (s : DBState) (user_id : Int) : DBState × Bool :=
  ({ s with authorized := s.authorized.filter (fun u => u ≠ user_id) },
   decide (user_id ∈ s.authorized))

/-- Model of `DatabaseManager.is_authorized`: `SELECT 1 FROM authorized_users WHERE
user_id = ?` — a pure membership check. -/
def is_authorized (s : DBState) (user_id : Int) : Bool :=
  decide (user_id ∈ s.authorized)

/-- Model of `DatabaseManager.get_authorized_users`: `SELECT user_id FROM
authorized_users` (table scan in insertion order). -/
def get_authorized_users (s : DBState) : List Int := s.authorized

/-- Model of `DatabaseManager.add_invite_link`: `INSERT INTO invite_links
(submitter_id, link) VALUES (?, ?)`; the id is the next AUTOINCREMENT value
and the timestamp defaults to `CURRENT_TIMESTAMP` (the clock value `now`). -/
def add_invite_link (s : DBState) (submitter_id : Int) (link : String)
    (now : Nat) : DBState :=
  { s with
    links := s.links ++ [⟨s.nextId, submitter_id, link, now⟩],
    nextId := s.nextId + 1 }

/-- One step of `ORDER BY timestamp DESC`: insert a row into an already
descending-sorted suffix, after every row with a strictly newer timestamp and
before rows with older-or-equal timestamps (stable for equal timestamps). -/
def insertRow (a : LinkRow) : List LinkRow → List LinkRow
  | [] => [a]
  | b :: l => if b.timestamp ≤ a.timestamp then a :: b :: l else b :: insertRow a l

/-- Stable sort of the `invite_links` rows by timestamp descending, modelling
`ORDER BY timestamp DESC` over the rows scanned in rowid order. -/
def sortLinks : List LinkRow → List LinkRow
  | [] => []
  | a :: l => insertRow a (sortLinks l)

/-- Model of `DatabaseManager.get_all_links`: `SELECT submitter_id, link, timestamp
FROM invite_links ORDER BY timestamp DESC`. -/
def get_all_links (s : DBState) : List (Int × String × Nat) :=
  (sortLinks s.links).map (fun r => (r.submitter, r.link, r.timestamp))

/-- Python `int(str)` as used by `add_user`/`remove_user`: strips surrounding
whitespace, accepts an optional sign then decimal digits, raises `ValueError`
(here `none`) otherwise. (Python's underscore digit separators are not
modelled; no handler behaviour under scrutiny depends on them.) -/
def digitsToNat : List Char → Option Nat
  | [] => none
  | cs =>
    if cs.all Char.isDigit then
      some (cs.foldl (fun n c => 10 * n + (c.toNat - 48)) 0)
    else none

/-- Optional sign handling of Python `int(str)` (after whitespace stripping). -/
def pyInt (str : String) : Option Int :=
  match str.trim.toList with
  | '-' :: rest => (digitsToNat rest).map (fun n => -(n : Int))
  | '+' :: rest => (digitsToNat rest).map (fun n => (n : Int))
  | cs => (digitsToNat cs).map (fun n => (n : Int))

/-- Character-list core of Python's `str.startswith` as used on the link
argument: does the second list lead the first? -/
def charsStartWith : List Char → List Char → Bool
  | _, [] => true
  | [], _ :: _ => false
  | c :: cs, p :: ps => c == p && charsStartWith cs ps

/-- Python's `link.startswith(pre)` on the two invite-link forms (a pure
shape check on the characters). -/
def strStartsWith (s pre : String) : Bool := charsStartWith s.toList pre.toList

/-- Reply text of the permission check shared by the four admin-only handlers. -/
def deniedMsg : String := "You are not authorized to use this command."

/-- Reply of `submit_link` to a sender that `is_authorized` rejects. -/
def notAuthorizedSubmitMsg : String :=
  "You are not authorized to submit links. Please contact an admin."

/-- Handler `start`: static greeting, no state change. -/
def startHandler (s : DBState) (_sender : Int) : DBState × String :=
  (s, "Hello! I am a bot for managing invite links. Admins can add/remove authorized users and view submitted links.")

/-- Handler `add_user`: admin gate, then `int(context.args[0])` (IndexError or
ValueError → usage reply), then `db.add_authorized_user` and a reply keyed on
its boolean result. -/
def add_user (s : DBState) (sender : Int) (args : List String) :
    DBState × String :=
  if is_admin sender = false then (s, deniedMsg)
  else
    match args with
    | [] => (s, "Usage: `/add_user <user_id>`")
    | a :: _ =>
      match pyInt a with
      | none => (s, "Usage: `/add_user <user_id>`")
      | some u =>
        let r := add_authorized_user s u
        (r.1,
         if r.2 then
           "User with ID `" ++ toString u ++ "` has been added to the authorized list."
         else
           "User with ID `" ++ toString u ++ "` is already in the authorized list.")

/-- Handler `remove_user`: admin gate, `int(context.args[0])`, then
`db.remove_authorized_user` and a reply keyed on its boolean result. -/
def remove_user (s : DBState) (sender : Int) (args : List String) :
    DBState × String :=
  if is_admin sender = false then (s, deniedMsg)
  else
    match args with
    | [] => (s, "Usage: `/remove_user <user_id>`")
    | a :: _ =>
      match pyInt a with
      | none => (s, "Usage: `/remove_user <user_id>`")
      | some u =>
        let r := remove_authorized_user s u
        (r.1,
         if r.2 then
           "User with ID `" ++ toString u ++ "` has been removed from the authorized list."
         else
           "User with ID `" ++ toString u ++ "` was not found in the authorized list.")

/-- Handler `list_users`: admin gate, then either the newline-joined id list or
the empty-set message. Never mutates the store. -/
def list_users (s : DBState) (sender : Int) : DBState × String :=
  if is_admin sender = false then (s, deniedMsg)
  else
    match get_authorized_users s with
    | [] => (s, "No authorized users found.")
    | users =>
      (s, "Authorized users:\n```\n"
          ++ String.intercalate "\n" (users.map toString) ++ "\n```")

/-- Handler `submit_link`: gate on `db.is_authorized` (NOT on `is_admin`),
`context.args[0]` (IndexError → usage reply), shape check of the two accepted
invite-link forms, then `db.add_invite_link`. -/
def submit_link (s : DBState) (sender : Int) (args : List String)
    (now : Nat) : DBState × String :=
  if is_authorized s sender = false then (s, notAuthorizedSubmitMsg)
  else
    match args with
    | [] => (s, "Usage: `/submit_link <invite_link>`")
    | link :: _ =>
      if ¬ strStartsWith link "https://t.me/joinchat/"
          ∧ ¬ strStartsWith link "https://t.me/+" then
        (s, "That doesn't look like a valid Telegram invite link.")
      else
        (add_invite_link s sender link now,
         "Thank you! Your invite link has been submitted.")

/-- Rendering of one link row inside `list_links` (timestamps rendered from
the model's clock value). -/
def renderLink (t : Int × String × Nat) : String :=
  "- User ID: " ++ toString t.1 ++ "\n  Link: " ++ t.2.1
    ++ "\n  Time: " ++ toString t.2.2 ++ "\n"

/-- Handler `list_links`: admin gate, `db.get_all_links`, then either the
rendered rows or the empty message. Never mutates the store. -/
def list_links (s : DBState) (sender : Int) : DBState × String :=
  if is_admin sender = false then (s, deniedMsg)
  else
    match get_all_links s with
    | [] => (s, "No links have been submitted yet.")
    | links =>
      (s, "Submitted links:\n\n" ++ String.join (links.map renderLink))

/-- An inbound command event, as dispatched by the registered
`CommandHandler`s in `main`: sender id, command, argument list, and the clock
value at handling time (read only by `submit_link`'s insert). -/
inductive Event where
  | startCmd (sender : Int)
  | addUserCmd (sender : Int) (args : List String)
  | removeUserCmd (sender : Int) (args : List String)
  | listUsersCmd (sender : Int)
  | submitLinkCmd (sender : Int) (args : List String) (now : Nat)
  | listLinksCmd (sender : Int)

/-- The dispatcher: one inbound command event handled against the store. -/
def step (s : DBState) (e : Event) : DBState × String :=
  match e with
  | .startCmd sender => startHandler s sender
  | .addUserCmd sender args => add_user s sender args
  | .removeUserCmd sender args => remove_user s sender args
  | .listUsersCmd sender => list_users s sender
  | .submitLinkCmd sender args now => submit_link s sender args now
  | .listLinksCmd sender => list_links s sender

/-- The bootstrap loop in `main`: `for admin_id in ADMIN_IDS:
db.add_authorized_user(admin_id)`. -/
def bootstrap (s : DBState) : DBState :=
  ADMIN_IDS.foldl (fun st a => (add_authorized_user st a).1) s

/-- Outcome of process startup: either the `ValueError` raised at import time
(the interpreter then exits with non-zero status, before any transport
connection), or a running bot holding the token and the bootstrapped store. -/
inductive StartupResult where
  | failed (msg : String)
  | running (token : String) (s : DBState)
deriving Repr, DecidableEq

/-- Process startup: `BOT_TOKEN = os.getenv("BOT_TOKEN")` followed by the
falsiness check (`None` or the empty string raise `ValueError` at import time,
before the database object, the bootstrap loop, and `Application.builder`),
then `main`'s bootstrap loop before `run_polling` connects the transport. -/
def startup (env_BOT_TOKEN : Option String) (s : DBState) : StartupResult :=
  match env_BOT_TOKEN with
  | none =>
    .failed "BOT_TOKEN environment variable not set. Please set it before running the bot."
  | some t =>
    if t = "" then
      .failed "BOT_TOKEN environment variable not set. Please set it before running the bot."
    else
      .running t (bootstrap s)

/-- A concrete store with two links sharing the timestamp `5`, inserted with
ids `1` then `2`. -/
def c2State : DBState := ⟨[], [⟨1, 10, "a", 5⟩, ⟨2, 11, "b", 5⟩], 3⟩

/-! ### Helper lemmas about the embedded operations -/

theorem mem_insertRow {a x : LinkRow} {l : List LinkRow} :
    x ∈ insertRow a l ↔ x = a ∨ x ∈ l := by
  induction l with
  | nil => simp [insertRow]
  | cons b l ih =>
    rw [insertRow]
    by_cases hb : b.timestamp ≤ a.timestamp
    · simp [hb]
    · simp [hb, ih]
      tauto

theorem sorted_insertRow {a : LinkRow} {l : List LinkRow}
    (h : List.Sorted (fun x y => y.timestamp ≤ x.timestamp) l) :
    List.Sorted (fun x y => y.timestamp ≤ x.timestamp) (insertRow a l) := by
  induction l with
  | nil => simp [insertRow]
  | cons b l ih =>
    rw [List.sorted_cons] at h
    rw [insertRow]
    by_cases hb : b.timestamp ≤ a.timestamp
    · rw [if_pos hb, List.sorted_cons]
      refine ⟨?_, List.sorted_cons.mpr h⟩
      intro y hy
      rcases List.mem_cons.mp hy with rfl | hyl
      · exact hb
      · exact le_trans (h.1 y hyl) hb
    · rw [if_neg hb, List.sorted_cons]
      refine ⟨?_, ih h.2⟩
      intro y hy
      rcases mem_insertRow.mp hy with rfl | hyl
      · exact le_of_lt (lt_of_not_le hb)
      · exact h.1 y hyl

theorem sorted_sortLinks (l : List LinkRow) :
    List.Sorted (fun x y => y.timestamp ≤ x.timestamp) (sortLinks l) := by
  induction l with
  | nil => simp [sortLinks]
  | cons a l ih => exact sorted_insertRow ih

theorem filter_insertRow (a : LinkRow) (l : List LinkRow) (t : Nat) :
    (insertRow a l).filter (fun r => r.timestamp == t)
      = if a.timestamp = t then a :: l.filter (fun r => r.timestamp == t)
        else l.filter (fun r => r.timestamp == t) := by
  induction l with
  | nil => by_cases ha : a.timestamp = t <;> simp [insertRow, ha]
  | cons b l ih =>
    rw [insertRow]
    by_cases hb : b.timestamp ≤ a.timestamp
    · rw [if_pos hb]
      by_cases ha : a.timestamp = t <;> simp [ha, List.filter_cons]
    · rw [if_neg hb]
      by_cases ha : a.timestamp = t
      · have hbne : ¬ b.timestamp = t := by
          intro hEq
          exact hb (by omega)
        simp [ha, List.filter_cons, hbne, ih]
      · simp [ha, List.filter_cons, ih]

theorem filter_sortLinks (l : List LinkRow) (t : Nat) :
    (sortLinks l).filter (fun r => r.timestamp == t)
      = l.filter (fun r => r.timestamp == t) := by
  induction l with
  | nil => rfl
  | cons a l ih =>
    rw [sortLinks, filter_insertRow]
    by_cases ha : a.timestamp = t <;> simp [ha, List.filter_cons, ih]

theorem mem_add_authorized_user (s : DBState) (u v : Int) :
    v ∈ (add_authorized_user s u).1.authorized ↔ v ∈ s.authorized ∨ v = u := by
  unfold add_authorized_user
  by_cases h : u ∈ s.authorized
  · rw [if_pos h]
    constructor
    · exact Or.inl
    · rintro (hv | rfl)
      · exact hv
      · exact h
  · rw [if_neg h]
    simp

theorem add_authorized_user_of_mem (s : DBState) (u : Int)
    (h : u ∈ s.authorized) : (add_authorized_user s u).1 = s := by
  simp [add_authorized_user, h]

theorem nodup_add_authorized_user (s : DBState) (u : Int)
    (h : s.authorized.Nodup) : (add_authorized_user s u).1.authorized.Nodup := by
  unfold add_authorized_user
  by_cases hm : u ∈ s.authorized
  · simpa [hm] using h
  · simp [hm, List.nodup_append, h]

theorem links_add_authorized_user (s : DBState) (u : Int) :
    (add_authorized_user s u).1.links = s.links := by
  unfold add_authorized_user
  by_cases hm : u ∈ s.authorized <;> simp [hm]

theorem add_authorized_user_snd_iff (s : DBState) (u : Int) :
    (add_authorized_user s u).2 = true ↔ u ∉ s.authorized := by
  unfold add_authorized_user
  by_cases h : u ∈ s.authorized <;> simp [h]

theorem add_authorized_user_snd_of_mem (s : DBState) (u : Int)
    (h : u ∈ s.authorized) : (add_authorized_user s u).2 = false := by
  simp [add_authorized_user, h]

theorem fst_list_users (s : DBState) (sender : Int) :
    (list_users s sender).1 = s := by
  unfold list_users
  by_cases h : is_admin sender = false
  · simp [h]
  · simp only [h]
    cases get_authorized_users s <;> simp

theorem fst_list_links (s : DBState) (sender : Int) :
    (list_links s sender).1 = s := by
  unfold list_links
  by_cases h : is_admin sender = false
  · simp [h]
  · simp only [h]
    cases get_all_links s <;> simp

theorem links_add_user (s : DBState) (sender : Int) (args : List String) :
    (add_user s sender args).1.links = s.links := by
  unfold add_user
  by_cases h : is_admin sender = false
  · simp [h]
  · simp only [h]
    rcases args with _ | ⟨a, rest⟩
    · simp
    · cases hp : pyInt a <;> simp [hp, links_add_authorized_user]

theorem links_remove_user (s : DBState) (sender : Int) (args : List String) :
    (remove_user s sender args).1.links = s.links := by
  unfold remove_user
  by_cases h : is_admin sender = false
  · simp [h]
  · simp only [h]
    rcases args with _ | ⟨a, rest⟩
    · simp
    · cases hp : pyInt a <;> simp [hp, remove_authorized_user]

/-- C2 (counterexample): with two links of equal timestamp, `get_all_links`
returns them in insertion order (id ascending), not id descending as the
claim states. -/
theorem c2_counterexample :
    get_all_links c2State = [(10, "a", 5), (11, "b", 5)]
    ∧ get_all_links c2State ≠ [(11, "b", 5), (10, "a", 5)] := by decide

/-- C2 (amended): `get_all_links` returns the links sorted descending by
timestamp, and rows of equal timestamp appear in insertion order (sequence id
ascending): for each timestamp `t`, the `t`-rows of the output are exactly the
`t`-rows of the table in rowid order. -/
theorem c2_get_all_links_newest_first (s : DBState) :
    List.Sorted (fun x y : Int × String × Nat => y.2.2 ≤ x.2.2) (get_all_links s)
    ∧ ∀ t : Nat,
        (get_all_links s).filter (fun x => x.2.2 == t)
          = (s.links.filter (fun r => r.timestamp == t)).map
              (fun r => (r.submitter, r.link, r.timestamp)) := by
  constructor
  · have hs := sorted_sortLinks s.links
    unfold get_all_links
    exact List.Pairwise.map _ (fun a b hab => hab) hs
  · intro t
    unfold get_all_links
    rw [List.filter_map]
    have hcomp :
        ((fun x : Int × String × Nat => x.2.2 == t)
            ∘ fun r : LinkRow => (r.submitter, r.link, r.timestamp))
          = fun r : LinkRow => r.timestamp == t := rfl
    rw [hcomp, filter_sortLinks]

/-- C1 (counterexample): sender `123456789` is in the static admin set, yet on
a store whose authorized-users set does not contain it (here the fresh store),
`submit_link` with a well-formed link replies with the permission-denied text
and persists nothing — `submit_link` gates only on `is_authorized`, never on
`is_admin`. -/
theorem c1_counterexample :
    is_admin 123456789 = true
    ∧ is_authorized initialState 123456789 = false
    ∧ submit_link initialState 123456789 ["https://t.me/+abc"] 0
        = (initialState, notAuthorizedSubmitMsg) := by decide

/-- C1 (amended): an admin sender is treated by `submit_link` exactly like any
other sender: the command is permitted (and the link persisted) precisely when
the sender is currently in the store's authorized-users set; an admin absent
from that set receives the permission-denied reply. -/
theorem c1_admin_submit_requires_membership (s : DBState) (sender : Int)
    (link : String) (now : Nat) (_hadm : is_admin sender = true) :
    (is_authorized s sender = true →
      (strStartsWith link "https://t.me/joinchat/" = true
        ∨ strStartsWith link "https://t.me/+" = true) →
      submit_link s sender [link] now
        = (add_invite_link s sender link now,
           "Thank you! Your invite link has been submitted."))
    ∧ (is_authorized s sender = false →
      submit_link s sender [link] now = (s, notAuthorizedSubmitMsg)) := by
  constructor
  · intro hauth hpre
    unfold submit_link
    rw [hauth]
    simp only [Bool.true_eq_false, if_false]
    have hcond : ¬ (¬ strStartsWith link "https://t.me/joinchat/"
        ∧ ¬ strStartsWith link "https://t.me/+") := by
      rcases hpre with h | h <;> simp [h]
    rw [if_neg hcond]
  · intro hnauth
    unfold submit_link
    rw [hnauth]
    simp

theorem c1_witness :
    is_admin 123456789 = true
    ∧ submit_link ⟨[123456789], [], 1⟩ 123456789 ["https://t.me/+x"] 0
        = (add_invite_link ⟨[123456789], [], 1⟩ 123456789 "https://t.me/+x" 0,
           "Thank you! Your invite link has been submitted.")
    ∧ submit_link initialState 123456789 ["https://t.me/+x"] 0
        = (initialState, notAuthorizedSubmitMsg) :=
  ⟨by decide,
   (c1_admin_submit_requires_membership ⟨[123456789], [], 1⟩ 123456789
      "https://t.me/+x" 0 (by decide)).1 (by decide) (Or.inr (by decide)),
   (c1_admin_submit_requires_membership initialState 123456789
      "https://t.me/+x" 0 (by decide)).2 (by decide)⟩

/-- C3: for an authorized sender, `submit_link` with an argument matching
neither accepted invite-link form replies with the validation error and leaves
the store unchanged, while an argument beginning with either accepted form is
persisted via `add_invite_link` with the confirmation reply. -/
theorem c3_submit_link_validation (s : DBState) (sender : Int) (link : String)
    (rest : List String) (now : Nat) (hauth : is_authorized s sender = true) :
    (strStartsWith link "https://t.me/joinchat/" = false
        ∧ strStartsWith link "https://t.me/+" = false →
      submit_link s sender (link :: rest) now
        = (s, "That doesn't look like a valid Telegram invite link."))
    ∧ (strStartsWith link "https://t.me/joinchat/" = true
        ∨ strStartsWith link "https://t.me/+" = true →
      submit_link s sender (link :: rest) now
        = (add_invite_link s sender link now,
           "Thank you! Your invite link has been submitted.")) := by
  constructor
  · intro hbad
    unfold submit_link
    rw [hauth]
    simp only [Bool.true_eq_false, if_false]
    rw [if_pos (by simp [hbad.1, hbad.2])]
  · intro hgood
    unfold submit_link
    rw [hauth]
    simp only [Bool.true_eq_false, if_false]
    have hcond : ¬ (¬ strStartsWith link "https://t.me/joinchat/"
        ∧ ¬ strStartsWith link "https://t.me/+") := by
      rcases hgood with h | h <;> simp [h]
    rw [if_neg hcond]

theorem c3_witness :
    is_authorized ⟨[7], [], 1⟩ 7 = true
    ∧ submit_link ⟨[7], [], 1⟩ 7 ["ftp://x"] 0
        = (⟨[7], [], 1⟩, "That doesn't look like a valid Telegram invite link.")
    ∧ submit_link ⟨[7], [], 1⟩ 7 ["https://t.me/joinchat/z"] 0
        = (add_invite_link ⟨[7], [], 1⟩ 7 "https://t.me/joinchat/z" 0,
           "Thank you! Your invite link has been submitted.") :=
  ⟨by decide,
   (c3_submit_link_validation ⟨[7], [], 1⟩ 7 "ftp://x" [] 0 (by decide)).1
     ⟨by decide, by decide⟩,
   (c3_submit_link_validation ⟨[7], [], 1⟩ 7 "https://t.me/joinchat/z" [] 0
      (by decide)).2 (Or.inl (by decide))⟩

/-- C4: `add_authorized_user` reports `true` exactly when the id was absent,
and a second call right after the first always reports `false`; a duplicate is
a soft `false`, never an error. -/
theorem c4_add_authorized_user_twice (s : DBState) (u : Int) :
    ((add_authorized_user s u).2 = true ↔ u ∉ s.authorized)
    ∧ (add_authorized_user (add_authorized_user s u).1 u).2 = false := by
  refine ⟨add_authorized_user_snd_iff s u, ?_⟩
  exact add_authorized_user_snd_of_mem _ u
    ((mem_add_authorized_user s u u).mpr (Or.inr rfl))

/-- C5: after `add_authorized_user u` the check `is_authorized u` is true;
after `remove_authorized_user u` it is false; and `remove_authorized_user`
returns true exactly when `u` was present before the call. -/
theorem c5_add_remove_is_authorized (s : DBState) (u : Int) :
    is_authorized (add_authorized_user s u).1 u = true
    ∧ is_authorized (remove_authorized_user s u).1 u = false
    ∧ ((remove_authorized_user s u).2 = true ↔ u ∈ s.authorized) := by
  refine ⟨?_, ?_, ?_⟩
  · simp [is_authorized, mem_add_authorized_user]
  · simp [is_authorized, remove_authorized_user, List.mem_filter]
  · simp [remove_authorized_user]

theorem bootstrap_eq (s : DBState) :
    bootstrap s
      = (add_authorized_user (add_authorized_user s 123456789).1 987654321).1 :=
  rfl

/-- C6: after the bootstrap loop in `main`, every configured admin id is in the
authorized set; running the loop a second time is a no-op on the store; and the
set stays duplicate-free (each id occurs at most once). -/
theorem c6_bootstrap_admins_seeded (s : DBState) :
    (∀ a ∈ ADMIN_IDS, a ∈ (bootstrap s).authorized)
    ∧ bootstrap (bootstrap s) = bootstrap s
    ∧ (s.authorized.Nodup → (bootstrap s).authorized.Nodup) := by
  have hmem : ∀ a ∈ ADMIN_IDS, a ∈ (bootstrap s).authorized := by
    intro a ha
    have ha' : a = 123456789 ∨ a = 987654321 := by simpa [ADMIN_IDS] using ha
    rw [bootstrap_eq]
    rcases ha' with rfl | rfl
    · exact (mem_add_authorized_user _ _ _).mpr
        (Or.inl ((mem_add_authorized_user _ _ _).mpr (Or.inr rfl)))
    · exact (mem_add_authorized_user _ _ _).mpr (Or.inr rfl)
  refine ⟨hmem, ?_, ?_⟩
  · have h1 : (123456789 : Int) ∈ (bootstrap s).authorized :=
      hmem 123456789 (by decide)
    have h2 : (987654321 : Int) ∈ (bootstrap s).authorized :=
      hmem 987654321 (by decide)
    calc bootstrap (bootstrap s)
        = (add_authorized_user
            (add_authorized_user (bootstrap s) 123456789).1 987654321).1 :=
          bootstrap_eq _
      _ = (add_authorized_user (bootstrap s) 987654321).1 := by
          rw [add_authorized_user_of_mem _ _ h1]
      _ = bootstrap s := add_authorized_user_of_mem _ _ h2
  · intro h
    rw [bootstrap_eq]
    exact nodup_add_authorized_user _ _ (nodup_add_authorized_user _ _ h)

theorem c6_witness :
    (123456789 : Int) ∈ (bootstrap initialState).authorized
    ∧ bootstrap (bootstrap initialState) = bootstrap initialState
    ∧ (bootstrap initialState).authorized.Nodup :=
  ⟨(c6_bootstrap_admins_seeded initialState).1 123456789 (by decide),
   (c6_bootstrap_admins_seeded initialState).2.1,
   (c6_bootstrap_admins_seeded initialState).2.2 (by decide)⟩

/-- C7: a dispatcher step never removes or rewrites an `invite_links` row — it
either leaves the table untouched or appends exactly one row — and any row it
appends has a submitter that `is_authorized` accepted in the pre-state (the
check happens at insert time; later removals of the submitter touch only the
`authorized_users` table). -/
theorem c7_links_append_only_authorized (s : DBState) (e : Event) :
    (step s e).1.links = s.links
    ∨ ∃ r : LinkRow, (step s e).1.links = s.links ++ [r]
        ∧ is_authorized s r.submitter = true := by
  cases e with
  | startCmd sender => exact Or.inl rfl
  | addUserCmd sender args => exact Or.inl (links_add_user s sender args)
  | removeUserCmd sender args => exact Or.inl (links_remove_user s sender args)
  | listUsersCmd sender => exact Or.inl (congrArg DBState.links (fst_list_users s sender))
  | listLinksCmd sender => exact Or.inl (congrArg DBState.links (fst_list_links s sender))
  | submitLinkCmd sender args now =>
    simp only [step]
    by_cases hauth : is_authorized s sender = false
    · exact Or.inl (by simp [submit_link, hauth])
    · rcases args with _ | ⟨link, rest⟩
      · exact Or.inl (by simp [submit_link, hauth])
      · cases hA : strStartsWith link "https://t.me/joinchat/"
          <;> cases hB : strStartsWith link "https://t.me/+"
        · exact Or.inl (by simp [submit_link, hauth, hA, hB])
        all_goals
          refine Or.inr ⟨⟨s.nextId, sender, link, now⟩, ?_, by simpa using hauth⟩
        all_goals
          simp [submit_link, hauth, hA, hB, add_invite_link]

/-- C8: a sender outside the static admin set gets the fixed
permission-denied reply from each of `add_user`, `remove_user`, `list_users`
and `list_links`, with the store (both tables) returned unchanged. -/
theorem c8_nonadmin_commands_denied (s : DBState) (sender : Int)
    (args : List String) (h : is_admin sender = false) :
    add_user s sender args = (s, deniedMsg)
    ∧ remove_user s sender args = (s, deniedMsg)
    ∧ list_users s sender = (s, deniedMsg)
    ∧ list_links s sender = (s, deniedMsg) := by
  refine ⟨?_, ?_, ?_, ?_⟩ <;> simp [add_user, remove_user, list_users, list_links, h]

theorem c8_witness :
    is_admin 42 = false
    ∧ add_user initialState 42 ["7"] = (initialState, deniedMsg)
    ∧ remove_user initialState 42 ["7"] = (initialState, deniedMsg)
    ∧ list_users initialState 42 = (initialState, deniedMsg)
    ∧ list_links initialState 42 = (initialState, deniedMsg) :=
  ⟨by decide,
   (c8_nonadmin_commands_denied initialState 42 ["7"] (by decide)).1,
   (c8_nonadmin_commands_denied initialState 42 ["7"] (by decide)).2.1,
   (c8_nonadmin_commands_denied initialState 42 ["7"] (by decide)).2.2.1,
   (c8_nonadmin_commands_denied initialState 42 ["7"] (by decide)).2.2.2⟩

/-- C9: with `BOT_TOKEN` unset (or empty, which Python's falsiness check also
rejects), startup yields the failed outcome carrying the descriptive
`ValueError` message — no running bot, hence no transport connection and no
command ever served; the Python interpreter exits non-zero on the uncaught
exception. -/
theorem c9_missing_token_aborts_startup (s : DBState) :
    startup none s
      = .failed "BOT_TOKEN environment variable not set. Please set it before running the bot."
    ∧ startup (some "") s
      = .failed "BOT_TOKEN environment variable not set. Please set it before running the bot."
    ∧ ∀ tok : Option String, ∀ t st,
        startup tok s = .running t st → tok = some t ∧ t ≠ "" := by
  refine ⟨rfl, rfl, ?_⟩
  intro tok t st h
  cases tok with
  | none => simp [startup] at h
  | some v =>
    simp only [startup] at h
    by_cases hv : v = ""
    · rw [if_pos hv] at h
      exact StartupResult.noConfusion h
    · rw [if_neg hv] at h
      cases h
      exact ⟨rfl, hv⟩

/-- C10: each argument-taking handler consults only the first entry of the
argument list — trailing arguments change neither the reply nor the stored
state. -/
theorem c10_extra_args_ignored (s : DBState) (sender : Int) (a : String)
    (rest : List String) (now : Nat) :
    add_user s sender (a :: rest) = add_user s sender [a]
    ∧ remove_user s sender (a :: rest) = remove_user s sender [a]
    ∧ submit_link s sender (a :: rest) now = submit_link s sender [a] now :=
  ⟨rfl, rfl, rfl⟩
